import Mathlib

/-!
Verification of the knowledge-graph construction and optimization core
(`src/backend/knowledge-organization`): the entity model (Relationship, Graph),
the relationship extractor, the graph builder's complexity validation, the
pydantic schema validators, and the graph optimizer.

Python floats are modelled as exact rationals (ℚ), Python dicts as association
lists, node ids as strings, and fallible constructors / validators as
`Except String`-valued functions.  Every definition is a direct translation of
the corresponding Python function; deviations forced by the shallow embedding
(fuel for recursion, explicit state passing) are noted at each definition.
-/

namespace KnowledgeOrg

/-! ## Data model: Relationship (app/models/relationship.py) -/

/-- `RELATIONSHIP_TYPES` from app/models/relationship.py. -/
def RELATIONSHIP_TYPES : List String :=
  ["IS_PREREQUISITE", "IS_RELATED", "CONTAINS", "REFERENCES", "EXTENDS"]

/-- A `Relationship` dataclass instance.  Of the metadata dict only the
`similarity_score` entry is ever read back by the core (in
`filter_relationships`), so the metadata is modelled by that single optional
entry; `simScore? = none` models a metadata dict without the key.  Timestamps,
correlation ids and version counters play no role in any claim and are
omitted. -/
structure Rel where
  type : String
  source_id : String
  target_id : String
  weight : ℚ
  simScore? : Option ℚ := none
  id : String := ""
deriving DecidableEq

/-- `metadata.get("similarity_score", 0)` as used by `filter_relationships`. -/
def Rel.simScore (r : Rel) : ℚ := r.simScore?.getD 0

/-- `Relationship.__post_init__` (app/models/relationship.py, lines 65-105):
validates `type ∈ RELATIONSHIP_TYPES` and `0.0 <= weight <= 1.0`, then returns
the (metadata-normalised) relationship.  Note: the Python code contains no
check that `source_id ≠ target_id`. -/
def relationshipPostInit (r : Rel) : Except String Rel :=
  if RELATIONSHIP_TYPES.contains r.type then
    if 0 ≤ r.weight ∧ r.weight ≤ 1 then Except.ok r
    else Except.error "Weight must be between 0.0 and 1.0"
  else Except.error "Invalid relationship type"

/-- `RelationshipSchema.validate_source_target` (app/schemas/graph.py,
lines 105-114): `if source_id and target_id and source_id == target_id: raise`.
Python truthiness of the ids is modelled as non-emptiness. -/
def relationshipSchemaValidateSourceTarget (source_id target_id : String) :
    Except String Unit :=
  if source_id ≠ "" ∧ target_id ≠ "" ∧ source_id = target_id then
    Except.error "Source and target nodes must be different"
  else Except.ok ()

/-! ## RelationshipExtractor (app/core/relationship_extractor.py) -/

/-- `SIMILARITY_THRESHOLD` constant. -/
def SIMILARITY_THRESHOLD : ℚ := 7/10

/-- `MAX_RELATIONSHIPS_PER_NODE` constant. -/
def MAX_RELATIONSHIPS_PER_NODE : Nat := 20

/-- An input node dict as consumed by the extractor.  Every field the extractor
reads via `.get` is optional, mirroring a Python dict; the embedding vector is
not represented because it is only ever consumed by the external similarity
collaborator, which is modelled as an abstract function on the node records. -/
structure NodeDict where
  id : String
  level : Option Int := none
  scope : Option String := none
  typ : Option String := none
  references : List String := []
  quality_score : Option ℚ := none
deriving DecidableEq

/-- Python's substring test `needle in haystack` on strings (note: the empty
string is a substring of every string, including the empty string). -/
def pyInStr (needle haystack : String) : Bool :=
  haystack.toList.tails.any (fun t => needle.toList.isPrefixOf t)

/-- `RelationshipExtractor.determine_relationship_type` (lines 179-231):
ordered rules, first match wins.  The containment rule is Python
`source.get("scope", "") in target.get("scope", "")`, i.e. a substring test
with `""` as default; the extension rule compares `.get("type")` values where
two absent keys compare equal (`None == None`). -/
def determine_relationship_type (source target : NodeDict) (similarity : ℚ) :
    Option String :=
  if source.level.getD 0 < target.level.getD 0 ∧ similarity > 8/10 then
    some "IS_PREREQUISITE"
  else if pyInStr (source.scope.getD "") (target.scope.getD "") ∧ similarity > 85/100 then
    some "CONTAINS"
  else if source.typ = target.typ ∧ similarity > 9/10 then
    some "EXTENDS"
  else if source.references.any (fun ref => target.references.contains ref) then
    some "REFERENCES"
  else if similarity ≥ SIMILARITY_THRESHOLD then
    some "IS_RELATED"
  else
    none

/-- `RELATIONSHIP_WEIGHTS.get(relationship_type, 0.5)` (lines 25-31, 252). -/
def relationshipBaseWeight (t : String) : ℚ :=
  if t = "IS_PREREQUISITE" then 1
  else if t = "IS_RELATED" then 7/10
  else if t = "CONTAINS" then 9/10
  else if t = "REFERENCES" then 6/10
  else if t = "EXTENDS" then 8/10
  else 1/2

/-- `dict.get(key, default)` on a ℚ-valued association list. -/
def dictGetQ (d : List (String × ℚ)) (k : String) (dflt : ℚ) : ℚ :=
  match d.find? (fun p => p.1 = k) with
  | some p => p.2
  | none => dflt

/-- `RelationshipExtractor.calculate_relationship_weight` (lines 233-274).
`quality_factors` is an optional dict; Python's `if quality_factors:` is false
for both `None` and the empty dict, in which case the quality modifier is
skipped.  The result is clamped into [0,1] by `max(0.0, min(1.0, weight))`. -/
def calculate_relationship_weight (relationship_type : String) (similarity : ℚ)
    (quality_factors : Option (List (String × ℚ))) : ℚ :=
  let base := relationshipBaseWeight relationship_type
  let w := base * similarity
  let w := match quality_factors with
    | none => w
    | some d =>
        if d.isEmpty then w
        else
          w * ((dictGetQ d "source_quality" (1/2) + dictGetQ d "target_quality" (1/2)) / 2)
  max 0 (min 1 w)

/-- Stable descending insertion (used to model Python's stable
`sorted(key=weight, reverse=True)`): an element is placed after every element
of weight ≥ its own, so elements of equal weight keep their original order. -/
def insertByWeightDesc (r : Rel) : List Rel → List Rel
  | [] => [r]
  | x :: xs => if r.weight ≤ x.weight then x :: insertByWeightDesc r xs else r :: x :: xs

/-- `sorted(relationships, key=lambda r: r.weight, reverse=True)`: stable sort
by weight, descending. -/
def sortByWeightDesc (rels : List Rel) : List Rel :=
  rels.foldl (fun acc r => insertByWeightDesc r acc) []

/-- `node_relationships.get(id, 0)` on the per-node counter dict. -/
def countGet (m : List (String × Nat)) (k : String) : Nat :=
  match m.find? (fun p => p.1 = k) with
  | some p => p.2
  | none => 0

/-- `node_relationships[id] = v` on the per-node counter dict. -/
def countSet (m : List (String × Nat)) (k : String) (v : Nat) : List (String × Nat) :=
  match m with
  | [] => [(k, v)]
  | p :: rest => if p.1 = k then (k, v) :: rest else p :: countSet rest k v

/-- The greedy per-node cap loop of `filter_relationships` (lines 308-320):
keeps a relationship only when both endpoint counters are below
`MAX_RELATIONSHIPS_PER_NODE`, then writes `source_count + 1` to the source key
and `target_count + 1` to the target key (both counts read before either
write, exactly as in the Python). -/
def applyNodeCap (m : List (String × Nat)) : List Rel → List Rel
  | [] => []
  | r :: rest =>
      let sc := countGet m r.source_id
      let tc := countGet m r.target_id
      if sc < MAX_RELATIONSHIPS_PER_NODE ∧ tc < MAX_RELATIONSHIPS_PER_NODE then
        let m := countSet m r.source_id (sc + 1)
        let m := countSet m r.target_id (tc + 1)
        r :: applyNodeCap m rest
      else
        applyNodeCap m rest

/-- `RelationshipExtractor.filter_relationships` (lines 276-329): sort by
weight descending, drop relationships whose recorded similarity score is below
the threshold, then apply the greedy per-node cap. -/
def filter_relationships (relationships : List Rel) : List Rel :=
  if relationships.isEmpty then []
  else
    let sorted := sortByWeightDesc relationships
    let filtered := sorted.filter (fun r => r.simScore ≥ SIMILARITY_THRESHOLD)
    applyNodeCap [] filtered

/-- The unordered pairs `(batch[i], batch[j])`, `i < j`, in generation order
(lines 92-96). -/
def pairsOfBatch : List NodeDict → List (NodeDict × NodeDict)
  | [] => []
  | x :: rest => rest.map (fun y => (x, y)) ++ pairsOfBatch rest

/-- The relationship cache, keyed by `(source_id, target_id)`.  Within a single
`extract_relationships` call every cached entry is younger than `CACHE_TTL`,
so the TTL test always passes and is not modelled. -/
abbrev Cache := List ((String × String) × Rel)

/-- `_get_cached_relationship`. -/
def cacheGet (c : Cache) (k : String × String) : Option Rel :=
  match (c : List ((String × String) × Rel)).find? (fun p => p.1 = k) with
  | some p => some p.2
  | none => none

/-- Processing of one node pair in the second loop of a batch (lines 119-154):
compute the similarity, discard below-threshold pairs, classify, weigh, build
the relationship and cache it.  The constructed relationship always passes
`Relationship.__post_init__` because its type is drawn from the closed set and
its weight is clamped into [0,1]. -/
def processPair (sim : NodeDict → NodeDict → ℚ) (st : Cache × List Rel)
    (p : NodeDict × NodeDict) : Cache × List Rel :=
  let (cache, acc) := st
  let (source, target) := p
  let score := sim source target
  if score ≥ SIMILARITY_THRESHOLD then
    match determine_relationship_type source target score with
    | some t =>
        let w := calculate_relationship_weight t score
          (some [("source_quality", source.quality_score.getD (1/2)),
                 ("target_quality", target.quality_score.getD (1/2))])
        let rel : Rel :=
          { type := t, source_id := source.id, target_id := target.id,
            weight := w, simScore? := some score, id := "" }
        (((source.id, target.id), rel) :: cache, acc ++ [rel])
    | none => (cache, acc)
  else (cache, acc)

/-- One batch of `extract_relationships` (lines 90-154).  The first loop
appends all cache hits (in pair order) and queues the misses; the second loop
appends the computed relationships (in the same pair order).  Cache writes
happen only in the second loop, after every lookup of the batch. -/
def processBatch (sim : NodeDict → NodeDict → ℚ) (st : Cache × List Rel)
    (batch : List NodeDict) : Cache × List Rel :=
  let (cache, acc) := st
  let pairs := pairsOfBatch batch
  let hits := pairs.filterMap (fun p => cacheGet cache (p.1.id, p.2.id))
  let misses := pairs.filter (fun p => (cacheGet cache (p.1.id, p.2.id)).isNone)
  misses.foldl (processPair sim) (cache, acc ++ hits)

/-- `[nodes[i:i + n] for i in range(0, len(nodes), n)]` for `n ≥ 1`
(fuel-structured so that it evaluates by kernel reduction). -/
def chunksAux {α : Type} (fuel n : Nat) (l : List α) : List (List α) :=
  match fuel with
  | 0 => []
  | fuel + 1 => if l.isEmpty then [] else l.take n :: chunksAux fuel n (l.drop n)

/-- Batch splitting; `n = 0` never occurs (the effective batch size is at
least 1 for a non-empty node list). -/
def chunks {α : Type} (n : Nat) (l : List α) : List (List α) :=
  chunksAux l.length n l

/-- `RelationshipExtractor.extract_relationships` (lines 64-177) for a single
invocation on a fresh extractor (empty cache), with the external similarity
collaborator abstracted as `sim`.  `batchSize?` models the optional
`batch_size` argument (`batch_size or BATCH_SIZE` treats 0 like `None`). -/
def extract_relationships (sim : NodeDict → NodeDict → ℚ)
    (nodes : List NodeDict) (batchSize? : Option Nat) : List Rel :=
  if nodes.isEmpty then []
  else
    let requested := match batchSize? with
      | some b => if b = 0 then 100 else b
      | none => 100
    let bs := min requested nodes.length
    let batches := chunks bs nodes
    let st := batches.foldl (processBatch sim) (([] : Cache), ([] : List Rel))
    filter_relationships st.2

/-! ## Data model: Graph (app/models/graph.py) -/

/-- `GRAPH_TYPES` from app/models/graph.py. -/
def GRAPH_TYPES : List String :=
  ["KNOWLEDGE_GRAPH", "TOPIC_GRAPH", "PREREQUISITE_GRAPH", "SEMANTIC_GRAPH"]

/-- A `Graph` dataclass instance.  Nodes are represented by their ids (the
other `Node` fields play no role in any claim); the metadata dict, timestamps,
version counter and cache/monitoring configuration are bookkeeping that no
claim depends on and are omitted. -/
structure GraphData where
  name : String
  type : String
  nodes : List String
  relationships : List Rel
deriving DecidableEq

/-- `Graph.__post_init__` (app/models/graph.py, lines 68-109): the only
validation performed is `type ∈ GRAPH_TYPES`.  There is no acyclicity check,
no endpoint-membership check, and the relationship list is stored as given
(no edge is dropped). -/
def graphPostInit (g : GraphData) : Except String GraphData :=
  if GRAPH_TYPES.contains g.type then Except.ok g
  else Except.error "Invalid graph type"

/-! ## Schema validation (app/schemas/graph.py) -/

/-- The adjacency dict built by `_has_cycle` (lines 194-196):
`graph.setdefault(source, []).append(target)` — neighbour lists keep insertion
order and duplicates. -/
def pyAdj (edges : List (String × String)) (v : String) : List String :=
  (edges.filter (fun e => e.1 = v)).map (fun e => e.2)

/-- The inner neighbour loop of `_has_cycle.dfs` (lines 205-211):
`if neighbor not in visited: recurse elif neighbor in path: cycle`.
`visit` is the recursive call at the next fuel level; the visited set is
threaded through, the path set is the recursion stack. -/
def dfsNeighborsGo (visit : String → List String → List String → Bool × List String) :
    List String → List String → List String → Bool × List String
  | [], visited, _ => (false, visited)
  | nb :: rest, visited, path =>
      if visited.contains nb then
        if path.contains nb then (true, visited)
        else dfsNeighborsGo visit rest visited path
      else
        match visit nb visited path with
        | (true, vis) => (true, vis)
        | (false, vis) => dfsNeighborsGo visit rest vis path

/-- `_has_cycle.dfs` (lines 201-213), fuel-structured.  Each recursive call is
on a vertex not yet visited, so a fuel of (number of vertices + 1) can never
run out; the fuel-0 branch is dead code needed only for totality. -/
def dfsVisit (adj : String → List String) :
    Nat → String → List String → List String → Bool × List String
  | 0, _, visited, _ => (false, visited)
  | fuel + 1, v, visited, path =>
      dfsNeighborsGo (dfsVisit adj fuel) (adj v) (v :: visited) (v :: path)

/-- The outer loop of `_has_cycle` (lines 215-219): run the DFS from every
not-yet-visited key of the adjacency dict. -/
def hasCycleGo (adj : String → List String) (fuel : Nat) :
    List String → List String → Bool
  | [], _ => false
  | v :: rest, visited =>
      if visited.contains v then hasCycleGo adj fuel rest visited
      else
        match dfsVisit adj fuel v visited [] with
        | (true, _) => true
        | (false, vis) => hasCycleGo adj fuel rest vis

/-- `_has_cycle(edges)` (app/schemas/graph.py, lines 190-219): DFS-based cycle
detection over the directed edge list.  The roots are the distinct edge
sources in first-occurrence order (the adjacency dict's keys). -/
def hasCycle (edges : List (String × String)) : Bool :=
  let verts := (edges.map (fun e => e.1) ++ edges.map (fun e => e.2)).eraseDups
  hasCycleGo (pyAdj edges) (verts.length + 1) ((edges.map (fun e => e.1)).eraseDups) []

/-- The endpoint-membership loop of `GraphSchema.validate_relationships`
(lines 167-174): per relationship, source checked before target, first
failure raises. -/
def checkEndpoints (nodeIds : List String) :
    List (String × String) → Except String Unit
  | [] => Except.ok ()
  | (s, t) :: rest =>
      if ¬ nodeIds.contains s then
        Except.error "Source node not found in graph nodes"
      else if ¬ nodeIds.contains t then
        Except.error "Target node not found in graph nodes"
      else checkEndpoints nodeIds rest

/-- `GraphSchema.validate_relationships` (app/schemas/graph.py, lines
155-182): with an empty node list all validation (including the cycle check)
is skipped (`if not values.get('nodes'): return relationships`); otherwise
endpoints are checked, and for `PREREQUISITE_GRAPH` a cyclic edge list raises
a `ValueError` — edges are never dropped. -/
def graphSchemaValidateRelationships (gtype : String) (nodeIds : List String)
    (rels : List (String × String)) : Except String (List (String × String)) :=
  if nodeIds.isEmpty then Except.ok rels
  else
    match checkEndpoints nodeIds rels with
    | Except.error e => Except.error e
    | Except.ok _ =>
        if gtype = "PREREQUISITE_GRAPH" ∧ hasCycle rels then
          Except.error "Prerequisite graph cannot contain cycles"
        else Except.ok rels

/-! ## GraphBuilder complexity validation (app/core/graph_builder.py) -/

/-- `MIN_CONNECTIONS_PER_NODE` constant. -/
def MIN_CONNECTIONS_PER_NODE : Nat := 10

/-- The node set of the NetworkX digraph built from a relationship list:
for each added edge the source id is registered before the target id, each
kept at its first occurrence. -/
def nodesOfRels (rels : List Rel) : List String :=
  ((rels.map (fun r => [r.source_id, r.target_id])).flatten).eraseDups

/-- The edge set of that digraph: repeated `add_edge` calls on the same
(source, target) pair collapse into one edge. -/
def edgePairsDedup (rels : List Rel) : List (String × String) :=
  (rels.map (fun r => (r.source_id, r.target_id))).eraseDups

/-- `G.degree(n)` on a NetworkX `DiGraph`: out-degree plus in-degree over the
deduplicated edge set (a self-loop counts once in each). -/
def totalDegree (edges : List (String × String)) (n : String) : Nat :=
  (edges.filter (fun e => e.1 = n)).length + (edges.filter (fun e => e.2 = n)).length

/-- One frontier-expansion pass of reachability: all edge targets whose source
is already reached and which are new. -/
def reachAux (edges : List (String × String)) :
    Nat → List String → List String
  | 0, vis => vis
  | fuel + 1, vis =>
      let nxt := ((edges.filter (fun e => vis.contains e.1 ∧ ¬ vis.contains e.2)).map
        (fun e => e.2)).eraseDups
      if nxt.isEmpty then vis else reachAux edges fuel (vis ++ nxt)

/-- The set of vertices reachable from `start` (fuel = vertex count suffices:
every pass before saturation adds at least one new vertex). -/
def reachableFrom (edges : List (String × String)) (vcount : Nat) (start : String) :
    List String :=
  reachAux edges vcount [start]

/-- `nx.is_strongly_connected(G)` on a non-empty digraph: every vertex
reachable from every vertex. -/
def stronglyConnectedB (nodes : List String) (edges : List (String × String)) : Bool :=
  nodes.all (fun u => nodes.all (fun v => (reachableFrom edges nodes.length u).contains v))

/-- `GraphBuilder.validate_graph_complexity` (app/core/graph_builder.py, lines
244-289).  The check graph `G` is built from `graph.relationships` only, so
its vertex set is `nodesOfRels graph.relationships` — a graph node that occurs
in no relationship is absent from `G` and is never degree-checked.  Checks, in
order: every vertex of `G` has total degree ≥ 10; `G` is strongly connected
(on the empty graph NetworkX raises, caught by the `except` branch returning
`False`); the average degree is not below 10. -/
def validate_graph_complexity (rels : List Rel) : Bool :=
  let edges := edgePairsDedup rels
  let nodes := nodesOfRels rels
  if nodes.isEmpty then false
  else
    (nodes.all (fun n => MIN_CONNECTIONS_PER_NODE ≤ totalDegree edges n)) &&
    stronglyConnectedB nodes edges &&
    !(decide ((((nodes.map (totalDegree edges)).sum : ℚ) / (nodes.length : ℚ)) <
        (MIN_CONNECTIONS_PER_NODE : ℚ)))

/-! ## GraphOptimizer (app/core/graph_optimizer.py)

The optimizer's persistence collaborator (Neo4j) is modelled as an explicit
relationship store of type `List Rel`; `DELETE` and `SET weight` queries
become pure transformations of that store.  `Graph.get_relationships` is
called by the optimizer but does not exist in the `Graph` model under src;
Modelled from the spec: it reads the current persisted relationship set
(§2: the optimizer "reads/writes the persisted graph"). -/

/-- `MIN_RELATIONSHIP_WEIGHT` constant. -/
def MIN_RELATIONSHIP_WEIGHT : ℚ := 1/10

/-- `G[u][v]['weight']` for the digraph built by repeated
`add_edge(source, target, weight=...)`: the last-added edge for a (u, v) pair
wins. -/
def edgeWeight (rels : List Rel) (u v : String) : ℚ :=
  match rels.reverse.find? (fun r => r.source_id = u ∧ r.target_id = v) with
  | some r => r.weight
  | none => 0

/-- `G[u][v]['id']`, last-added edge wins. -/
def edgeId (rels : List Rel) (u v : String) : String :=
  match rels.reverse.find? (fun r => r.source_id = u ∧ r.target_id = v) with
  | some r => r.id
  | none => ""

/-- `G.has_edge(u, v)`. -/
def hasEdgeB (rels : List Rel) (u v : String) : Bool :=
  rels.any (fun r => r.source_id = u ∧ r.target_id = v)

/-- `G.successors(u)`: distinct targets of edges out of `u`, in insertion
order. -/
def succsOf (rels : List Rel) (u : String) : List String :=
  ((rels.filter (fun r => r.source_id = u)).map (fun r => r.target_id)).eraseDups

/-- `G.predecessors(v)`: distinct sources of edges into `v`, in insertion
order. -/
def predsOf (rels : List Rel) (v : String) : List String :=
  ((rels.filter (fun r => r.target_id = v)).map (fun r => r.source_id)).eraseDups

/-- `G.edges()`: per node in insertion order, its out-edges in adjacency
order. -/
def gEdges (rels : List Rel) : List (String × String) :=
  ((nodesOfRels rels).map (fun u => (succsOf rels u).map (fun v => (u, v)))).flatten

/-- Depth-first enumeration of the simple paths from `u` to `target` that
avoid `visited`; the direct edge `u → target` yields the two-node path.
The fuel bounds the path length by the vertex count, which loses nothing
because a simple path cannot repeat vertices. -/
def simplePathsFrom (succs : String → List String) :
    Nat → String → String → List String → List (List String)
  | 0, _, _, _ => []
  | fuel + 1, u, target, visited =>
      ((succs u).map (fun w =>
        if w = target then [[u, target]]
        else if visited.contains w then []
        else (simplePathsFrom succs fuel w target (w :: visited)).map
          (fun p => u :: p))).flatten

/-- `list(nx.all_simple_paths(G, u, v))`: all simple paths from `u` to `v`
(for `u = v` NetworkX yields no paths). -/
def allSimplePaths (rels : List Rel) (u v : String) : List (List String) :=
  if u = v then []
  else simplePathsFrom (succsOf rels) ((nodesOfRels rels).length + 1) u v [u]

/-- `np.prod` of the edge weights along a path given as a node list. -/
def pathStrength (rels : List Rel) : List String → ℚ
  | a :: b :: rest => edgeWeight rels a b * pathStrength rels (b :: rest)
  | _ => 1

/-- Python `max` over a list of path strengths (only applied to non-empty
lists; 0 stands in for the empty case). -/
def maxQ : List ℚ → ℚ
  | [] => 0
  | x :: rest => rest.foldl max x

/-- The redundant-edge scan of `remove_redundant_relationships` (lines
197-215): a direct edge is marked redundant when it has more than one simple
path from its source to its target and the strongest such path is strictly
stronger than the edge itself (the direct edge is itself among the paths). -/
def redundantEdgeIds (batch : List Rel) : List String :=
  (gEdges batch).filterMap (fun e =>
    let paths := allSimplePaths batch e.1 e.2
    if 1 < paths.length then
      if edgeWeight batch e.1 e.2 < maxQ (paths.map (pathStrength batch)) then
        some (edgeId batch e.1 e.2)
      else none
    else none)

/-- `GraphOptimizer.remove_redundant_relationships` (lines 175-241): compute
the redundant edge ids over the batch's digraph, then `DELETE` them from the
relationship store. -/
def remove_redundant_relationships (db batch : List Rel) : List Rel :=
  let ids := redundantEdgeIds batch
  db.filter (fun r => ¬ ids.contains r.id)

/-- `np.clip(x, lo, hi)`. -/
def npClip (x lo hi : ℚ) : ℚ := min hi (max lo x)

/-- `GraphOptimizer.optimize_weights` (lines 243-304).  `nx.pagerank` is an
iterative floating-point computation; it is abstracted as the collaborator
`pr`, mapping a batch and a node id to that node's importance score (with
`pr`'s value standing for `pagerank_scores.get(id, 0)`).  Every batch
relationship gets the update `clip((pr(source)+pr(target))/2 * weight, 0.1,
1.0)`, applied to the store by id (an id absent from the store is a no-op,
exactly like the Cypher `MATCH` of a deleted relationship). -/
def optimize_weights (pr : List Rel → String → ℚ) (db batch : List Rel) : List Rel :=
  let updates := batch.map (fun r =>
    (r.id, npClip ((pr batch r.source_id + pr batch r.target_id) / 2 * r.weight)
      MIN_RELATIONSHIP_WEIGHT 1))
  db.map (fun r =>
    match updates.find? (fun u => u.1 = r.id) with
    | some u => { r with weight := u.2 }
    | none => r)

/-! ### Directed clustering (`nx.clustering` on a `DiGraph`, networkx 3.1) -/

/-- `|a ∩ b|` for duplicate-free neighbour lists. -/
def interLen (a b : List String) : Nat :=
  (a.filter (fun x => b.contains x)).length

/-- `set(G._pred[i]) - {i}`. -/
def ipreds (rels : List Rel) (i : String) : List String :=
  (predsOf rels i).filter (fun x => x ≠ i)

/-- `set(G._succ[i]) - {i}`. -/
def isuccs (rels : List Rel) (i : String) : List String :=
  (succsOf rels i).filter (fun x => x ≠ i)

/-- The directed-triangle count of `_directed_triangles_and_degree_iter`:
for each `j` in the chain of `i`'s in- and out-neighbours (a reciprocal
neighbour is visited twice), the four intersection sizes are accumulated. -/
def directedTriangles (rels : List Rel) (i : String) : Nat :=
  (ipreds rels i ++ isuccs rels i).foldl (fun acc j =>
    acc + interLen (ipreds rels j) (ipreds rels i)
        + interLen (ipreds rels j) (isuccs rels i)
        + interLen (isuccs rels j) (ipreds rels i)
        + interLen (isuccs rels j) (isuccs rels i)) 0

/-- `nx.clustering(G)[i]` for a directed graph (Fagiolo):
`0 if T == 0 else T / (2 * (dtot * (dtot - 1) - 2 * dbidirectional))`. -/
def clusteringCoeff (rels : List Rel) (i : String) : ℚ :=
  let t := directedTriangles rels i
  let dt := (ipreds rels i).length + (isuccs rels i).length
  let dbi := interLen (ipreds rels i) (isuccs rels i)
  if t = 0 then 0
  else (t : ℚ) / (2 * ((dt : ℚ) * ((dt : ℚ) - 1) - 2 * (dbi : ℚ)))

/-! ### Structure rebalancing (`rebalance_structure`, lines 306-381) -/

/-- The module-level names bound in app/core/graph_optimizer.py: the imports
of lines 9-17 and the module-level assignments (logger, constants, metric
objects, the class itself).  `uuid` is not among them. -/
def graphOptimizerModuleGlobals : List String :=
  ["nx", "np", "logging", "asyncio", "Counter", "Gauge", "CircuitBreaker",
   "Graph", "Neo4jConnection", "logger", "MIN_RELATIONSHIP_WEIGHT",
   "MAX_RELATIONSHIP_WEIGHT", "OPTIMIZATION_BATCH_SIZE",
   "CIRCUIT_BREAKER_THRESHOLD", "CIRCUIT_BREAKER_TIMEOUT", "METRICS_CACHE_TTL",
   "OPTIMIZATION_TIMEOUT", "OPTIMIZATION_COUNTER", "OPTIMIZATION_DURATION",
   "GRAPH_METRICS", "GraphOptimizer"]

/-- Python name resolution at module scope: evaluating a name not bound in the
module globals raises a `NameError`. -/
def evalName (n : String) : Except String Unit :=
  if graphOptimizerModuleGlobals.contains n then Except.ok ()
  else Except.error ("NameError: name " ++ n ++ " is not defined")

/-- The edge-creation branch of `rebalance_structure` (lines 348-367): the
`CREATE` query's parameters include `str(uuid.uuid4())`, so the name `uuid`
is evaluated before the insert can run; on success (dead code, see
`evalName`) the new `IS_RELATED` edge would be appended to the store with a
fresh id (placeholder `"uuid4()"`). -/
def rebalanceInsertEdge (rels : List Rel) (node pred suc : String)
    (db : List Rel) : Except String (List Rel) :=
  match evalName "uuid" with
  | Except.error e => Except.error e
  | Except.ok _ =>
      let newRel : Rel :=
        { type := "IS_RELATED", source_id := pred, target_id := suc,
          weight := min (edgeWeight rels pred node) (edgeWeight rels node suc),
          simScore? := none, id := "uuid4()" }
      Except.ok (db ++ [newRel])

/-- The successor loop (lines 342-367): for each successor, if the direct
edge `pred → suc` is missing and `min(weight(pred,node), weight(node,suc))`
exceeds `MIN_RELATIONSHIP_WEIGHT`, attempt the insert.  `rels` is the
digraph snapshot (never updated by inserts, which only touch the store). -/
def rebalanceSuccLoop (rels : List Rel) (node pred : String) :
    List String → Except String (List Rel) → Except String (List Rel)
  | [], acc => acc
  | s :: rest, acc =>
      match acc with
      | Except.error e => Except.error e
      | Except.ok db =>
          if ¬ hasEdgeB rels pred s ∧
             MIN_RELATIONSHIP_WEIGHT <
               min (edgeWeight rels pred node) (edgeWeight rels node s) then
            rebalanceSuccLoop rels node pred rest (rebalanceInsertEdge rels node pred s db)
          else rebalanceSuccLoop rels node pred rest acc

/-- The predecessor loop (line 341). -/
def rebalancePredLoop (rels : List Rel) (node : String) :
    List String → Except String (List Rel) → Except String (List Rel)
  | [], acc => acc
  | p :: rest, acc =>
      rebalancePredLoop rels node rest (rebalanceSuccLoop rels node p (succsOf rels node) acc)

/-- The rebalance-node loop (line 336). -/
def rebalanceNodeLoop (rels : List Rel) :
    List String → Except String (List Rel) → Except String (List Rel)
  | [], acc => acc
  | nd :: rest, acc =>
      rebalanceNodeLoop rels rest (rebalancePredLoop rels nd (predsOf rels nd) acc)

/-- The nodes selected for rebalancing (lines 326-332): clustering coefficient
strictly below `optimization_config.get('min_clustering', 0.3)`, in node
order. -/
def rebalanceNodes (cfg : List (String × ℚ)) (rels : List Rel) : List String :=
  (nodesOfRels rels).filter
    (fun n => clusteringCoeff rels n < dictGetQ cfg "min_clustering" (3/10))

/-- `GraphOptimizer.rebalance_structure` (lines 306-381) acting on the
relationship store.  The initial `graph.analyze()` call is absent from the
`Graph` model under src; Modelled from the spec: a side-effect-free
structural analysis — its result `analysis_results` is never used by the
function, so it contributes nothing here. -/
def rebalance_structure (cfg : List (String × ℚ)) (db : List Rel) :
    Except String (List Rel) :=
  rebalanceNodeLoop db (rebalanceNodes cfg db) (Except.ok db)

/-- Specification-side characterisation of "an edge insertion is attempted":
some rebalance node has a predecessor/successor pair without a direct edge
whose candidate weight exceeds the minimum.  To be compared with the
behaviour of `rebalance_structure`. -/
def rebalanceTrigger (cfg : List (String × ℚ)) (db : List Rel) : Bool :=
  (rebalanceNodes cfg db).any (fun node =>
    (predsOf db node).any (fun p =>
      (succsOf db node).any (fun s =>
        (¬ hasEdgeB db p s ∧
          MIN_RELATIONSHIP_WEIGHT <
            min (edgeWeight db p node) (edgeWeight db node s) : Prop))))

/-! ### Metrics (`calculate_metrics`, lines 383-437) -/

/-- The metrics dict computed by `calculate_metrics`. -/
structure Metrics where
  node_count : Nat
  edge_count : Nat
  density : ℚ
  average_clustering : ℚ
  average_shortest_path : ℚ
  diameter : Nat
  average_degree : ℚ
  strongly_connected_components : Nat
deriving DecidableEq

/-- Breadth-first hop distances from one source; the frontier expands until no
new vertex appears (fuel = vertex count suffices). -/
def bfsAux (succs : String → List String) :
    Nat → List (String × Nat) → List String → Nat → List (String × Nat)
  | 0, dist, _, _ => dist
  | fuel + 1, dist, frontier, d =>
      let nxt := ((frontier.map succs).flatten.eraseDups).filter
        (fun w => ¬ dist.any (fun p => p.1 = w))
      if nxt.isEmpty then dist
      else bfsAux succs fuel (dist ++ nxt.map (fun w => (w, d + 1))) nxt (d + 1)

/-- Unweighted shortest-path length from `u` to `v` (NetworkX hop counts). -/
def hopDist (rels : List Rel) (u v : String) : Option Nat :=
  ((bfsAux (succsOf rels) (nodesOfRels rels).length [(u, 0)] [u] 0).find?
    (fun p => p.1 = v)).map (fun p => p.2)

/-- The shortest-path lengths over all ordered pairs of distinct vertices;
`none` when some pair is unreachable (NetworkX then raises "Graph is not
connected" from `average_shortest_path_length` / `diameter`). -/
def allPairsDists (rels : List Rel) : Option (List Nat) :=
  let nodes := nodesOfRels rels
  let ds := (nodes.map (fun u => (nodes.filter (fun v => v ≠ u)).map
    (fun v => hopDist rels u v))).flatten
  if ds.any (fun d => d.isNone) then none else some (ds.filterMap id)

/-- Count of strongly connected components: the number of mutual-reachability
classes of the vertex set. -/
def sccCountGo (sameComp : String → String → Bool) :
    List String → List String → Nat
  | [], _ => 0
  | u :: rest, seen =>
      (if seen.any (fun v => sameComp u v) then 0 else 1) +
        sccCountGo sameComp rest (u :: seen)

/-- `nx.number_strongly_connected_components(G)`. -/
def sccCount (rels : List Rel) : Nat :=
  let nodes := nodesOfRels rels
  let edges := edgePairsDedup rels
  sccCountGo
    (fun u v => (reachableFrom edges nodes.length u).contains v &&
                (reachableFrom edges nodes.length v).contains u)
    nodes []

/-- The metrics computation of `calculate_metrics` (lines 399-415) on the
digraph of the current relationship store.  NetworkX raises on the null graph
(`average_clustering` divides by `len(G)`), and `average_shortest_path_length`
/ `diameter` raise when the digraph is not strongly connected; both failure
modes surface as errors.  `density` is `m / (n (n-1))` with 0 for an edgeless
graph; all metrics ignore edge weights. -/
def metricsOf (rels : List Rel) : Except String Metrics :=
  let nodes := nodesOfRels rels
  let edges := edgePairsDedup rels
  let n := nodes.length
  if n = 0 then Except.error "metrics undefined on the null graph"
  else
    match allPairsDists rels with
    | none => Except.error "Graph is not connected"
    | some ds =>
        Except.ok
          { node_count := n
            edge_count := edges.length
            density := if edges.length = 0 then 0
              else (edges.length : ℚ) / ((n : ℚ) * ((n : ℚ) - 1))
            average_clustering := ((nodes.map (clusteringCoeff rels)).sum) / (n : ℚ)
            average_shortest_path := (ds.sum : ℚ) / ((n : ℚ) * ((n : ℚ) - 1))
            diameter := ds.foldl max 0
            average_degree := ((nodes.map (totalDegree edges)).sum : ℚ) / (n : ℚ)
            strongly_connected_components := sccCount rels }

/-- The per-graph-id metrics cache `self._metrics_cache`. -/
abbrev MetricsCache := List (String × Metrics)

/-- `GraphOptimizer.calculate_metrics` (lines 383-431): on a cache hit for
`"metrics:" ++ graphId` the cached metrics are returned with no recomputation;
otherwise the metrics are computed from the current store and cached.  The
TTL-based eviction runs `METRICS_CACHE_TTL = 300` seconds later, so within a
single `optimize` call a populated entry is still present. -/
def calculate_metrics (cache : MetricsCache) (graphId : String)
    (rels : List Rel) : Except String (Metrics × MetricsCache) :=
  let key := "metrics:" ++ graphId
  match (cache : List (String × Metrics)).find? (fun p => p.1 = key) with
  | some p => Except.ok (p.2, cache)
  | none =>
      match metricsOf rels with
      | Except.error e => Except.error e
      | Except.ok m =>
          Except.ok (m, (cache : List (String × Metrics)) ++ [(key, m)])

/-! ### The optimize pipeline (`optimize`, lines 88-173) -/

/-- The result state of a successful `optimize` call: the store, the metrics
cache, and the `optimization_metrics` metadata entry written at lines
134-140. -/
structure OptimizeResult where
  db : List Rel
  cache : MetricsCache
  initialMetrics : Metrics
  finalMetrics : Metrics

/-- The two batched passes of `optimize` (lines 117-125): the relationship
list is fetched once and split into batches of `OPTIMIZATION_BATCH_SIZE =
100`; each batch first has its redundant edges deleted from the store, then
its weight updates applied. -/
def optimizePassesDb (pr : List Rel → String → ℚ) (db : List Rel) : List Rel :=
  (chunks 100 db).foldl
    (fun d batch => optimize_weights pr (remove_redundant_relationships d batch) batch) db

/-- `GraphOptimizer.optimize` (lines 88-173): initial metrics, the two batched
passes, `rebalance_structure`, final metrics, and the metadata update
`optimization_metrics = {initial, final}`.  Any pass failure is re-raised. -/
def optimize (pr : List Rel → String → ℚ) (cfg : List (String × ℚ))
    (graphId : String) (db : List Rel) (cache : MetricsCache) :
    Except String OptimizeResult :=
  match calculate_metrics cache graphId db with
  | Except.error e => Except.error e
  | Except.ok (initial, cache1) =>
      let db1 := optimizePassesDb pr db
      match rebalance_structure cfg db1 with
      | Except.error e => Except.error e
      | Except.ok db2 =>
          match calculate_metrics cache1 graphId db2 with
          | Except.error e => Except.error e
          | Except.ok (final, cache2) =>
              Except.ok { db := db2, cache := cache2,
                          initialMetrics := initial, finalMetrics := final }

/-- A node id occurs in a relationship when it is its source or its target. -/
def occursIn (n : String) (r : Rel) : Bool :=
  n == r.source_id || n == r.target_id

/-! ## Concrete scenario data -/

/-- C1 scenario: three nodes with no level/scope/type/references fields. -/
def c1node1 : NodeDict := { id := "N1" }

def c1node2 : NodeDict := { id := "N2" }

def c1node3 : NodeDict := { id := "N3" }

/-- Similarity collaborator returning 0.95 for every pair. -/
def simNinetyFive : NodeDict → NodeDict → ℚ := fun _ _ => 19/20

/-- C9 scenario: node A at level 1. -/
def nodeA : NodeDict := { id := "A", level := some 1 }

/-- C9 scenario: node B at level 2. -/
def nodeB : NodeDict := { id := "B", level := some 2 }

/-- Similarity collaborator returning 0.85 for every pair. -/
def simEightyFive : NodeDict → NodeDict → ℚ := fun _ _ => 17/20

/-- A valid `IS_RELATED` relationship from `u` to `v` (used to build concrete
graphs). -/
def mkRelIR (u v : String) : Rel :=
  { type := "IS_RELATED", source_id := u, target_id := v, weight := 1/2,
    simScore? := some (9/10), id := u ++ v }

/-- All ordered pairs of distinct ids as relationships: a complete digraph. -/
def completeRels (ids : List String) : List Rel :=
  (ids.map (fun u => ids.filterMap
    (fun v => if u = v then none else some (mkRelIR u v)))).flatten

/-- Six node ids; the complete digraph on them gives every node total degree
10 (out 5 + in 5) and is strongly connected. -/
def sixIds : List String := ["a", "b", "c", "d", "e", "f"]

/-- C2 scenario: a graph whose node set contains the id "z" while its
relationship set is the complete digraph on the six other ids — "z" occurs in
no relationship. -/
def c2graph : GraphData :=
  { name := "g", type := "KNOWLEDGE_GRAPH", nodes := "z" :: sixIds,
    relationships := completeRels sixIds }

/-- C3 scenario: a PREREQUISITE_GRAPH whose two relationships form the
directed cycle a → b → a. -/
def cyclicPrereqGraph : GraphData :=
  { name := "g", type := "PREREQUISITE_GRAPH", nodes := ["a", "b"],
    relationships :=
      [{ type := "IS_PREREQUISITE", source_id := "a", target_id := "b",
         weight := 1/2, simScore? := some (9/10), id := "ab" },
       { type := "IS_PREREQUISITE", source_id := "b", target_id := "a",
         weight := 1/2, simScore? := some (9/10), id := "ba" }] }

/-- C4 scenario: a self-loop with a valid type and weight. -/
def selfLoopRel : Rel :=
  { type := "IS_RELATED", source_id := "s", target_id := "s", weight := 1/2,
    simScore? := some (9/10), id := "loop" }

/-- C10 scenario: direct edge A→C of weight 0.3 together with the alternate
path A→B→C of weight product 0.75 × 0.8 = 0.6. -/
def c10relAB : Rel :=
  { type := "IS_RELATED", source_id := "A", target_id := "B", weight := 3/4, id := "ab" }

def c10relBC : Rel :=
  { type := "IS_RELATED", source_id := "B", target_id := "C", weight := 4/5, id := "bc" }

def c10relAC : Rel :=
  { type := "IS_RELATED", source_id := "A", target_id := "C", weight := 3/10, id := "ac" }

def c10batch : List Rel := [c10relAB, c10relBC, c10relAC]

/-- C5 scenario: a strongly connected store (cycle A→B→C→A, weights 0.9) plus
the redundant direct edge A→C of weight 0.3 that pass one deletes. -/
def c5relAB : Rel :=
  { type := "IS_RELATED", source_id := "A", target_id := "B", weight := 9/10, id := "ab" }

def c5relBC : Rel :=
  { type := "IS_RELATED", source_id := "B", target_id := "C", weight := 9/10, id := "bc" }

def c5relCA : Rel :=
  { type := "IS_RELATED", source_id := "C", target_id := "A", weight := 9/10, id := "ca" }

def c5relAC : Rel :=
  { type := "IS_RELATED", source_id := "A", target_id := "C", weight := 3/10, id := "ac" }

def c5rels : List Rel := [c5relAB, c5relBC, c5relCA, c5relAC]

/-- The relationship store after the two batched passes on the C5 scenario:
edge "ac" deleted by redundancy removal, the surviving weights re-weighted to
clip((0.5+0.5)/2 × 0.9, 0.1, 1). -/
def c5dbAfterPasses : List Rel :=
  [{ c5relAB with weight := npClip ((1/2 + 1/2) / 2 * ((9:ℚ)/10)) (1/10) 1 },
   { c5relBC with weight := npClip ((1/2 + 1/2) / 2 * ((9:ℚ)/10)) (1/10) 1 },
   { c5relCA with weight := npClip ((1/2 + 1/2) / 2 * ((9:ℚ)/10)) (1/10) 1 }]

/-- A concrete importance collaborator: every node scores 1/2. -/
def prHalf : List Rel → String → ℚ := fun _ _ => 1/2

/-- An optimization config with `min_clustering = 0`, which disables
rebalancing (clustering coefficients are never negative). -/
def cfgZeroClustering : List (String × ℚ) := [("min_clustering", 0)]

/-- C6 scenario: the chain A→B→C; every clustering coefficient is 0 (below
the default threshold 0.3), and node B has the predecessor/successor pair
(A, C) with no direct edge and candidate weight min(0.5, 0.5) = 0.5 > 0.1. -/
def c6relAB : Rel :=
  { type := "IS_RELATED", source_id := "A", target_id := "B", weight := 1/2, id := "ab" }

def c6relBC : Rel :=
  { type := "IS_RELATED", source_id := "B", target_id := "C", weight := 1/2, id := "bc" }

def c6db : List Rel := [c6relAB, c6relBC]

/-- Witness graph for the optimizer: the two-cycle A⇄B, strongly connected,
with nothing redundant and rebalancing disabled. -/
def g2rels : List Rel :=
  [{ type := "IS_RELATED", source_id := "A", target_id := "B", weight := 1/2, id := "ab" },
   { type := "IS_RELATED", source_id := "B", target_id := "A", weight := 1/2, id := "ba" }]

end KnowledgeOrg

namespace KnowledgeOrg

/-! ## Helper lemmas -/

/-- Lookup of the source-quality entry in the two-entry quality dict. -/
theorem dictGetQ_quality_source (q1 q2 d : ℚ) :
    dictGetQ [("source_quality", q1), ("target_quality", q2)] "source_quality" d = q1 := rfl

/-- Lookup of the target-quality entry in the two-entry quality dict. -/
theorem dictGetQ_quality_target (q1 q2 d : ℚ) :
    dictGetQ [("source_quality", q1), ("target_quality", q2)] "target_quality" d = q2 := rfl

/-- Unfolding of `countGet` on a cons cell. -/
theorem countGet_cons (p : String × Nat) (l : List (String × Nat)) (n : String) :
    countGet (p :: l) n = if p.1 = n then p.2 else countGet l n := by
  by_cases h : p.1 = n <;> simp [countGet, List.find?, h]

/-- `countGet` after `countSet`: the written key reads back the written value,
every other key is unchanged. -/
theorem countGet_countSet (m : List (String × Nat)) (k : String) (v : Nat) (n : String) :
    countGet (countSet m k v) n = if n = k then v else countGet m n := by
  induction m with
  | nil =>
      show countGet [(k, v)] n = if n = k then v else countGet [] n
      rw [countGet_cons]
      by_cases h : n = k
      · simp [h]
      · have h' : ¬ (k = n) := fun e => h e.symm
        simp [h, h']
  | cons p rest ih =>
      by_cases hk : p.1 = k
      · simp only [countSet, if_pos hk]
        rw [countGet_cons, countGet_cons]
        by_cases hn : n = k
        · simp [hn]
        · have h' : ¬ (k = n) := fun e => hn e.symm
          have hp' : ¬ (p.1 = n) := by rw [hk]; exact h'
          simp [h', hn, hp']
      · simp only [countSet, if_neg hk]
        rw [countGet_cons, countGet_cons, ih]
        by_cases hpn : p.1 = n
        · have hn : ¬ (n = k) := fun e => hk (hpn.trans e)
          simp [hpn, hn]
        · simp [hpn]

/-- Unfolding of the greedy cap loop on a cons cell. -/
theorem applyNodeCap_cons (m : List (String × Nat)) (r : Rel) (rest : List Rel) :
    applyNodeCap m (r :: rest) =
      if countGet m r.source_id < MAX_RELATIONSHIPS_PER_NODE ∧
         countGet m r.target_id < MAX_RELATIONSHIPS_PER_NODE then
        r :: applyNodeCap (countSet (countSet m r.source_id (countGet m r.source_id + 1))
          r.target_id (countGet m r.target_id + 1)) rest
      else applyNodeCap m rest := rfl

/-- The greedy cap loop invariant: starting from a counter state in which `n`
has count `c ≤ 20`, the loop keeps at most `20 - c` further relationships in
which `n` occurs. -/
theorem applyNodeCap_countP_le (rels : List Rel) :
    ∀ (m : List (String × Nat)) (n : String),
      countGet m n ≤ MAX_RELATIONSHIPS_PER_NODE →
      (applyNodeCap m rels).countP (occursIn n) + countGet m n ≤
        MAX_RELATIONSHIPS_PER_NODE := by
  induction rels with
  | nil => intro m n h; simpa [applyNodeCap] using h
  | cons r rest ih =>
      intro m n h
      rw [applyNodeCap_cons]
      split_ifs with hcond
      · set M' := countSet (countSet m r.source_id (countGet m r.source_id + 1))
          r.target_id (countGet m r.target_id + 1) with hM'
        have hm't : countGet M' n =
            if n = r.target_id then countGet m r.target_id + 1
            else if n = r.source_id then countGet m r.source_id + 1
            else countGet m n := by
          rw [hM', countGet_countSet, countGet_countSet]
        by_cases hocc : occursIn n r = true
        · have hor : n = r.source_id ∨ n = r.target_id := by
            simpa [occursIn] using hocc
          have hlt : countGet m n < MAX_RELATIONSHIPS_PER_NODE := by
            rcases hor with hs | ht
            · rw [hs]; exact hcond.1
            · rw [ht]; exact hcond.2
          have hm'n : countGet M' n = countGet m n + 1 := by
            rw [hm't]
            by_cases hnt : n = r.target_id
            · rw [if_pos hnt, hnt]
            · rw [if_neg hnt]
              have hns : n = r.source_id := by
                rcases hor with hs | ht
                · exact hs
                · exact absurd ht hnt
              rw [if_pos hns, hns]
          have hrec := ih M' n (by rw [hm'n]; omega)
          rw [hm'n] at hrec
          rw [List.countP_cons, hocc, if_pos rfl]
          omega
        · have hns : ¬ n = r.source_id := fun hs => hocc (by simp [occursIn, hs])
          have hnt : ¬ n = r.target_id := fun ht => hocc (by simp [occursIn, ht])
          have hm'n : countGet M' n = countGet m n := by
            rw [hm't, if_neg hnt, if_neg hns]
          have hrec := ih M' n (by rw [hm'n]; exact h)
          rw [hm'n] at hrec
          rw [List.countP_cons, if_neg hocc]
          omega
      · exact ih m n h

/-- Claim C7: neither the output of `filter_relationships` nor the final
output of `extract_relationships` contains a node id occurring as source or
target of more than `MAX_RELATIONSHIPS_PER_NODE = 20` of the returned
relationships. -/
theorem extract_relationships_per_node_cap :
    (∀ (rels : List Rel) (n : String),
      (filter_relationships rels).countP (occursIn n) ≤ MAX_RELATIONSHIPS_PER_NODE) ∧
    (∀ (sim : NodeDict → NodeDict → ℚ) (nodes : List NodeDict)
        (batchSize? : Option Nat) (n : String),
      (extract_relationships sim nodes batchSize?).countP (occursIn n) ≤
        MAX_RELATIONSHIPS_PER_NODE) := by
  have hfilter : ∀ (rels : List Rel) (n : String),
      (filter_relationships rels).countP (occursIn n) ≤ MAX_RELATIONSHIPS_PER_NODE := by
    intro rels n
    rw [filter_relationships]
    by_cases hemp : rels.isEmpty
    · simp [hemp, MAX_RELATIONSHIPS_PER_NODE]
    · rw [if_neg hemp]
      have := applyNodeCap_countP_le
        ((sortByWeightDesc rels).filter (fun r => r.simScore ≥ SIMILARITY_THRESHOLD))
        [] n (by simp [countGet, List.find?, MAX_RELATIONSHIPS_PER_NODE])
      simpa [countGet, List.find?] using this
  refine ⟨hfilter, ?_⟩
  intro sim nodes batchSize? n
  rw [extract_relationships.eq_def]
  by_cases hemp : nodes.isEmpty
  · simp [hemp, MAX_RELATIONSHIPS_PER_NODE]
  · rw [if_neg hemp]
    exact hfilter _ n

/-! ## Claim theorems -/

/-- Claim C4, counterexample.  `Relationship.__post_init__` accepts a
relationship whose source and target are the same id: the self-loop with a
valid type and weight is constructed successfully, so construction does not
fail with a validation error on `source_id = target_id`. -/
theorem self_loop_relationship_constructed :
    relationshipPostInit selfLoopRel = Except.ok selfLoopRel ∧
    selfLoopRel.source_id = selfLoopRel.target_id := by
  constructor
  · simp only [relationshipPostInit, selfLoopRel, RELATIONSHIP_TYPES]
    norm_num
  · rfl

/-- Claim C4 (amended): `Relationship.__post_init__` validates only that the
type is in the closed set and that the weight lies in [0,1]; it never compares
`source_id` with `target_id`, so a self-loop with valid type and weight is
constructed successfully.  The `source ≠ target` rule is enforced only by the
API-layer `RelationshipSchema` root validator. -/
theorem relationship_post_init_checks_type_weight_only :
    (∀ r : Rel, relationshipPostInit r = Except.ok r ↔
      (r.type ∈ RELATIONSHIP_TYPES ∧ 0 ≤ r.weight ∧ r.weight ≤ 1)) ∧
    (∀ s : String, s ≠ "" →
      relationshipSchemaValidateSourceTarget s s =
        Except.error "Source and target nodes must be different") := by
  constructor
  · intro r
    unfold relationshipPostInit
    split_ifs with h1 h2
    · simp_all
    · simp_all
    · constructor
      · intro h; cases h
      · intro h
        exact absurd (by simpa using h.1) (by simpa using h1)
  · intro s hs
    simp [relationshipSchemaValidateSourceTarget, hs]

/-- Claim C4, witness: the theorem applied at a concrete valid relationship
and a concrete non-empty id. -/
theorem relationship_post_init_checks_type_weight_only_witness :
    relationshipPostInit selfLoopRel = Except.ok selfLoopRel ∧
    relationshipSchemaValidateSourceTarget "x" "x" =
      Except.error "Source and target nodes must be different" :=
  ⟨(relationship_post_init_checks_type_weight_only.1 selfLoopRel).mpr
      (by norm_num [selfLoopRel, RELATIONSHIP_TYPES]),
   relationship_post_init_checks_type_weight_only.2 "x" (by decide)⟩

/-- Claim C3, counterexample.  A `Graph` with type `PREREQUISITE_GRAPH` and a
cyclic relationship set is constructed successfully by `Graph.__post_init__`
(which validates only the type string), with no edge dropped — so a cyclic
prerequisite Graph is constructed, contrary to the claim. -/
theorem cyclic_prerequisite_graph_constructed :
    graphPostInit cyclicPrereqGraph = Except.ok cyclicPrereqGraph ∧
    hasCycle (cyclicPrereqGraph.relationships.map
      (fun r => (r.source_id, r.target_id))) = true ∧
    cyclicPrereqGraph.type = "PREREQUISITE_GRAPH" := by
  refine ⟨rfl, ?_, rfl⟩
  decide

/-- Claim C3 (amended): the `Graph` model itself performs no acyclicity
validation — `Graph.__post_init__` succeeds for every graph whose type string
is `PREREQUISITE_GRAPH`, cyclic or not — while the cycle check lives in the
API schema layer: `GraphSchema.validate_relationships` rejects a
`PREREQUISITE_GRAPH` whose edge list the DFS detector reports cyclic (raising
a validation error, never dropping edges), provided the schema's node list is
non-empty and all endpoints are present. -/
theorem prerequisite_cycle_rejected_by_schema_only :
    (∀ g : GraphData, g.type = "PREREQUISITE_GRAPH" →
      graphPostInit g = Except.ok g) ∧
    (∀ (nodeIds : List String) (rels : List (String × String)),
      nodeIds ≠ [] →
      checkEndpoints nodeIds rels = Except.ok () →
      hasCycle rels = true →
      graphSchemaValidateRelationships "PREREQUISITE_GRAPH" nodeIds rels =
        Except.error "Prerequisite graph cannot contain cycles") := by
  constructor
  · intro g hg
    simp [graphPostInit, hg, GRAPH_TYPES]
  · intro nodeIds rels hne hends hcyc
    have hempty : nodeIds.isEmpty = false := by
      cases nodeIds with
      | nil => exact absurd rfl hne
      | cons a l => rfl
    simp [graphSchemaValidateRelationships, hempty, hends, hcyc]

/-- Claim C3, witness: the theorem applied to the concrete cyclic
prerequisite graph and to the concrete cyclic edge list a → b → a. -/
theorem prerequisite_cycle_rejected_by_schema_only_witness :
    graphPostInit cyclicPrereqGraph = Except.ok cyclicPrereqGraph ∧
    graphSchemaValidateRelationships "PREREQUISITE_GRAPH" ["a", "b"]
        [("a", "b"), ("b", "a")] =
      Except.error "Prerequisite graph cannot contain cycles" :=
  ⟨prerequisite_cycle_rejected_by_schema_only.1 cyclicPrereqGraph rfl,
   prerequisite_cycle_rejected_by_schema_only.2 ["a", "b"]
     [("a", "b"), ("b", "a")] (by decide) rfl (by decide)⟩

/-- Claim C8: `calculate_relationship_weight` returns
`clamp(base_weight(type) × similarity × (source_quality + target_quality)/2,
0, 1)` for each of the five closed types, with base weights IS_PREREQUISITE
1.0, CONTAINS 0.9, EXTENDS 0.8, IS_RELATED 0.7, REFERENCES 0.6; and for every
type string the returned weight lies in [0,1]. -/
theorem calculate_relationship_weight_clamped_formula (s q1 q2 : ℚ) :
    calculate_relationship_weight "IS_PREREQUISITE" s
        (some [("source_quality", q1), ("target_quality", q2)]) =
      max 0 (min 1 (1 * s * ((q1 + q2) / 2))) ∧
    calculate_relationship_weight "CONTAINS" s
        (some [("source_quality", q1), ("target_quality", q2)]) =
      max 0 (min 1 (9/10 * s * ((q1 + q2) / 2))) ∧
    calculate_relationship_weight "EXTENDS" s
        (some [("source_quality", q1), ("target_quality", q2)]) =
      max 0 (min 1 (8/10 * s * ((q1 + q2) / 2))) ∧
    calculate_relationship_weight "IS_RELATED" s
        (some [("source_quality", q1), ("target_quality", q2)]) =
      max 0 (min 1 (7/10 * s * ((q1 + q2) / 2))) ∧
    calculate_relationship_weight "REFERENCES" s
        (some [("source_quality", q1), ("target_quality", q2)]) =
      max 0 (min 1 (6/10 * s * ((q1 + q2) / 2))) ∧
    (∀ (t : String) (qf : Option (List (String × ℚ))),
      0 ≤ calculate_relationship_weight t s qf ∧
      calculate_relationship_weight t s qf ≤ 1) := by
  refine ⟨?_, ?_, ?_, ?_, ?_, ?_⟩
  · simp [calculate_relationship_weight, relationshipBaseWeight,
      dictGetQ_quality_source, dictGetQ_quality_target]
  · simp [calculate_relationship_weight, relationshipBaseWeight,
      dictGetQ_quality_source, dictGetQ_quality_target]
  · simp [calculate_relationship_weight, relationshipBaseWeight,
      dictGetQ_quality_source, dictGetQ_quality_target]
  · simp [calculate_relationship_weight, relationshipBaseWeight,
      dictGetQ_quality_source, dictGetQ_quality_target]
  · simp [calculate_relationship_weight, relationshipBaseWeight,
      dictGetQ_quality_source, dictGetQ_quality_target]
  · intro t qf
    unfold calculate_relationship_weight
    constructor
    · exact le_max_left 0 _
    · exact max_le (by norm_num) (min_le_left 1 _)

end KnowledgeOrg

namespace KnowledgeOrg

/-- Claim C1, counterexample.  For three nodes with pairwise similarity 0.95
and no level/scope/type/references fields, `extract_relationships` returns
three `CONTAINS` relationships of weight 0.9 × 0.95 × 0.5 — not `IS_RELATED`
relationships of weight 0.7 × 0.95 × 0.5 as claimed: with no scope fields the
containment rule fires, because Python's `"" in ""` is true and 0.95 > 0.85. -/
theorem extract_identical_triple_not_is_related :
    extract_relationships simNinetyFive [c1node1, c1node2, c1node3] none =
      [{ type := "CONTAINS", source_id := "N1", target_id := "N2",
         weight := 171/400, simScore? := some (19/20), id := "" },
       { type := "CONTAINS", source_id := "N1", target_id := "N3",
         weight := 171/400, simScore? := some (19/20), id := "" },
       { type := "CONTAINS", source_id := "N2", target_id := "N3",
         weight := 171/400, simScore? := some (19/20), id := "" }] ∧
    "CONTAINS" ≠ "IS_RELATED" ∧
    (171 : ℚ)/400 ≠ 7/10 * (19/20) * ((1/2 + 1/2) / 2) := by
  refine ⟨?_, by decide, by norm_num⟩
  have h1 : (7:ℚ)/10 ≤ 19/20 := by norm_num
  have h2 : (85:ℚ)/100 < 19/20 := by norm_num
  simp [extract_relationships, chunks, chunksAux, processBatch, pairsOfBatch, cacheGet,
    processPair, determine_relationship_type, SIMILARITY_THRESHOLD,
    calculate_relationship_weight, relationshipBaseWeight, dictGetQ_quality_source,
    dictGetQ_quality_target, filter_relationships, sortByWeightDesc, insertByWeightDesc,
    applyNodeCap, countGet, countSet, Rel.simScore, pyInStr, c1node1, c1node2, c1node3,
    simNinetyFive, MAX_RELATIONSHIPS_PER_NODE, h1, h2]
  norm_num

/-- Claim C1 (amended): for 3 nodes with pairwise similarity 0.95 and no
level, scope, type or references fields, `extract_relationships` returns
exactly one relationship per unordered pair (3 in total), each of type
`CONTAINS` — the containment rule fires first, since the absent scopes default
to `""` and Python's substring test `"" in ""` is true with 0.95 > 0.85 — and
each with weight 0.9 × 0.95 × the average of the two nodes' quality scores
(0.5 by default), clamped to [0,1]. -/
theorem extract_identical_triple_contains :
    extract_relationships simNinetyFive [c1node1, c1node2, c1node3] none =
      [{ type := "CONTAINS", source_id := "N1", target_id := "N2",
         weight := 171/400, simScore? := some (19/20), id := "" },
       { type := "CONTAINS", source_id := "N1", target_id := "N3",
         weight := 171/400, simScore? := some (19/20), id := "" },
       { type := "CONTAINS", source_id := "N2", target_id := "N3",
         weight := 171/400, simScore? := some (19/20), id := "" }] ∧
    (171 : ℚ)/400 = max 0 (min 1 (9/10 * (19/20) * ((1/2 + 1/2) / 2))) := by
  refine ⟨?_, by norm_num⟩
  have h1 : (7:ℚ)/10 ≤ 19/20 := by norm_num
  have h2 : (85:ℚ)/100 < 19/20 := by norm_num
  simp [extract_relationships, chunks, chunksAux, processBatch, pairsOfBatch, cacheGet,
    processPair, determine_relationship_type, SIMILARITY_THRESHOLD,
    calculate_relationship_weight, relationshipBaseWeight, dictGetQ_quality_source,
    dictGetQ_quality_target, filter_relationships, sortByWeightDesc, insertByWeightDesc,
    applyNodeCap, countGet, countSet, Rel.simScore, pyInStr, c1node1, c1node2, c1node3,
    simNinetyFive, MAX_RELATIONSHIPS_PER_NODE, h1, h2]
  norm_num

/-- Claim C9: given exactly the two nodes A (level 1) and B (level 2) with
similarity 0.85, `extract_relationships` returns exactly one relationship, of
type `IS_PREREQUISITE` directed A→B (source A, target B) — not `IS_RELATED`:
level 1 < level 2 and 0.85 > 0.8, so the prerequisite rule fires first. -/
theorem extract_two_level_nodes_is_prerequisite :
    extract_relationships simEightyFive [nodeA, nodeB] none =
      [{ type := "IS_PREREQUISITE", source_id := "A", target_id := "B",
         weight := 17/40, simScore? := some (17/20), id := "" }] ∧
    "IS_PREREQUISITE" ≠ "IS_RELATED" := by
  refine ⟨?_, by decide⟩
  have h1 : (7:ℚ)/10 ≤ 17/20 := by norm_num
  have h2 : (8:ℚ)/10 < 17/20 := by norm_num
  simp [extract_relationships, chunks, chunksAux, processBatch, pairsOfBatch, cacheGet,
    processPair, determine_relationship_type, SIMILARITY_THRESHOLD,
    calculate_relationship_weight, relationshipBaseWeight, dictGetQ_quality_source,
    dictGetQ_quality_target, filter_relationships, sortByWeightDesc, insertByWeightDesc,
    applyNodeCap, countGet, countSet, Rel.simScore, pyInStr, nodeA, nodeB,
    simEightyFive, MAX_RELATIONSHIPS_PER_NODE, h1, h2]
  norm_num

end KnowledgeOrg

namespace KnowledgeOrg

/-- The complete 6-vertex digraph passes the complexity validation: every
endpoint node has total degree 10, it is strongly connected, and the average
degree is 10 (shared evaluation helper). -/
theorem validate_complexity_complete_six : validate_graph_complexity (completeRels sixIds) = true := by
  have h2 : (nodesOfRels (completeRels sixIds)).all
      (fun n => MIN_CONNECTIONS_PER_NODE ≤
        totalDegree (edgePairsDedup (completeRels sixIds)) n) = true := by decide
  have h3 : stronglyConnectedB (nodesOfRels (completeRels sixIds))
      (edgePairsDedup (completeRels sixIds)) = true := by decide
  have h4 : ((nodesOfRels (completeRels sixIds)).map
      (totalDegree (edgePairsDedup (completeRels sixIds)))).sum = 60 := by decide
  have h5 : (nodesOfRels (completeRels sixIds)).isEmpty = false := by decide
  have h6 : (nodesOfRels (completeRels sixIds)).length = 6 := by decide
  simp only [validate_graph_complexity, h2, h3, h4, h5, h6, Bool.true_and,
    Bool.false_eq_true, if_false]
  norm_num [MIN_CONNECTIONS_PER_NODE]

/-- Claim C2, counterexample.  The complexity validation builds its check
graph from the relationships alone, so a graph node that occurs in no
relationship is never degree-checked: `c2graph` contains the node "z" with
total degree 0 < 10, yet `validate_graph_complexity` returns `true` on its
relationship set — at the complexity gate (graph_builder.py lines 141-142)
such a build does not fail. -/
theorem validate_complexity_ignores_isolated_node :
    validate_graph_complexity c2graph.relationships = true ∧
    "z" ∈ c2graph.nodes ∧
    totalDegree (edgePairsDedup c2graph.relationships) "z" = 0 ∧
    ¬ "z" ∈ nodesOfRels c2graph.relationships ∧
    totalDegree (edgePairsDedup c2graph.relationships) "z" < MIN_CONNECTIONS_PER_NODE := by
  refine ⟨validate_complexity_complete_six, ?_, ?_, ?_, ?_⟩
  · decide
  · decide
  · decide
  · decide

/-- Claim C2 (amended): the complexity gate checks the minimum-degree bound
only for nodes that occur as an endpoint of at least one relationship — for
every relationship set accepted by `validate_graph_complexity`, every node of
the check graph has total degree ≥ 10 (isolated graph nodes are outside the
check graph and are not examined). -/
theorem validate_complexity_endpoint_degree_ge_ten
    (rels : List Rel) (h : validate_graph_complexity rels = true) :
    ∀ n ∈ nodesOfRels rels,
      MIN_CONNECTIONS_PER_NODE ≤ totalDegree (edgePairsDedup rels) n := by
  intro n hn
  rw [validate_graph_complexity] at h
  by_cases hemp : (nodesOfRels rels).isEmpty
  · rw [if_pos hemp] at h
    cases h
  · rw [if_neg hemp, Bool.and_assoc, Bool.and_eq_true] at h
    have := (List.all_eq_true.mp h.1) n hn
    simpa using this

/-- Claim C2, witness: the amended theorem applied to the complete 6-vertex
digraph at node "a". -/
theorem validate_complexity_endpoint_degree_ge_ten_witness :
    MIN_CONNECTIONS_PER_NODE ≤
      totalDegree (edgePairsDedup (completeRels sixIds)) "a" :=
  validate_complexity_endpoint_degree_ge_ten (completeRels sixIds)
    validate_complexity_complete_six "a" (by decide)

end KnowledgeOrg

namespace KnowledgeOrg

/-- An error value is absorbed by the successor loop. -/
theorem rebalanceSuccLoop_error (rels : List Rel) (node pred : String)
    (ss : List String) (e : String) :
    rebalanceSuccLoop rels node pred ss (Except.error e) = Except.error e := by
  cases ss <;> rfl

/-- An error value is absorbed by the predecessor loop. -/
theorem rebalancePredLoop_error (rels : List Rel) (node : String)
    (ps : List String) (e : String) :
    rebalancePredLoop rels node ps (Except.error e) = Except.error e := by
  induction ps with
  | nil => rfl
  | cons p rest ih =>
      rw [rebalancePredLoop, rebalanceSuccLoop_error]
      exact ih

/-- An error value is absorbed by the node loop. -/
theorem rebalanceNodeLoop_error (rels : List Rel) (ns : List String) (e : String) :
    rebalanceNodeLoop rels ns (Except.error e) = Except.error e := by
  induction ns with
  | nil => rfl
  | cons nd rest ih =>
      rw [rebalanceNodeLoop, rebalancePredLoop_error]
      exact ih

/-- Looking up `uuid` in the optimizer module's globals fails. -/
theorem evalName_uuid :
    evalName "uuid" = Except.error "NameError: name uuid is not defined" := rfl

/-- The successor loop errors with the `uuid` NameError exactly when some
successor triggers the edge-creation branch; otherwise the store is
unchanged. -/
theorem rebalanceSuccLoop_char (rels : List Rel) (node pred : String) :
    ∀ (ss : List String) (db : List Rel),
      rebalanceSuccLoop rels node pred ss (Except.ok db) =
        if ss.any (fun s =>
            (¬ hasEdgeB rels pred s ∧ MIN_RELATIONSHIP_WEIGHT <
              min (edgeWeight rels pred node) (edgeWeight rels node s) : Prop)) then
          Except.error "NameError: name uuid is not defined"
        else Except.ok db := by
  intro ss
  induction ss with
  | nil => intro db; rfl
  | cons s rest ih =>
      intro db
      rw [rebalanceSuccLoop]
      by_cases hc : ¬ hasEdgeB rels pred s ∧ MIN_RELATIONSHIP_WEIGHT <
          min (edgeWeight rels pred node) (edgeWeight rels node s)
      · have hany : ((s :: rest).any (fun s =>
            (¬ hasEdgeB rels pred s ∧ MIN_RELATIONSHIP_WEIGHT <
              min (edgeWeight rels pred node) (edgeWeight rels node s) : Prop))) = true := by
          rw [List.any_cons, Bool.or_eq_true]
          exact Or.inl (decide_eq_true hc)
        rw [if_pos hc, rebalanceInsertEdge, evalName_uuid, rebalanceSuccLoop_error,
          if_pos hany]
      · have hany : ((s :: rest).any (fun s =>
            (¬ hasEdgeB rels pred s ∧ MIN_RELATIONSHIP_WEIGHT <
              min (edgeWeight rels pred node) (edgeWeight rels node s) : Prop))) =
            (rest.any (fun s =>
            (¬ hasEdgeB rels pred s ∧ MIN_RELATIONSHIP_WEIGHT <
              min (edgeWeight rels pred node) (edgeWeight rels node s) : Prop))) := by
          rw [List.any_cons, decide_eq_false hc, Bool.false_or]
        rw [if_neg hc, ih, hany]

/-- The predecessor loop errors exactly when some predecessor/successor pair
triggers the edge-creation branch. -/
theorem rebalancePredLoop_char (rels : List Rel) (node : String) :
    ∀ (ps : List String) (db : List Rel),
      rebalancePredLoop rels node ps (Except.ok db) =
        if ps.any (fun p => (succsOf rels node).any (fun s =>
            (¬ hasEdgeB rels p s ∧ MIN_RELATIONSHIP_WEIGHT <
              min (edgeWeight rels p node) (edgeWeight rels node s) : Prop))) then
          Except.error "NameError: name uuid is not defined"
        else Except.ok db := by
  intro ps
  induction ps with
  | nil => intro db; rfl
  | cons p rest ih =>
      intro db
      rw [rebalancePredLoop, rebalanceSuccLoop_char]
      by_cases hc : (succsOf rels node).any (fun s =>
          (¬ hasEdgeB rels p s ∧ MIN_RELATIONSHIP_WEIGHT <
            min (edgeWeight rels p node) (edgeWeight rels node s) : Prop)) = true
      · have hany : ((p :: rest).any (fun p => (succsOf rels node).any (fun s =>
            (¬ hasEdgeB rels p s ∧ MIN_RELATIONSHIP_WEIGHT <
              min (edgeWeight rels p node) (edgeWeight rels node s) : Prop)))) = true := by
          rw [List.any_cons, Bool.or_eq_true]
          exact Or.inl hc
        rw [if_pos hc, rebalancePredLoop_error, if_pos hany]
      · have hcf : (succsOf rels node).any (fun s =>
            (¬ hasEdgeB rels p s ∧ MIN_RELATIONSHIP_WEIGHT <
              min (edgeWeight rels p node) (edgeWeight rels node s) : Prop)) = false :=
          Bool.eq_false_iff.mpr hc
        have hany : ((p :: rest).any (fun p => (succsOf rels node).any (fun s =>
            (¬ hasEdgeB rels p s ∧ MIN_RELATIONSHIP_WEIGHT <
              min (edgeWeight rels p node) (edgeWeight rels node s) : Prop)))) =
            (rest.any (fun p => (succsOf rels node).any (fun s =>
            (¬ hasEdgeB rels p s ∧ MIN_RELATIONSHIP_WEIGHT <
              min (edgeWeight rels p node) (edgeWeight rels node s) : Prop)))) := by
          rw [List.any_cons, hcf, Bool.false_or]
        rw [if_neg hc, ih, hany]

/-- The node loop errors exactly when some node has a triggering
predecessor/successor pair. -/
theorem rebalanceNodeLoop_char (rels : List Rel) :
    ∀ (ns : List String) (db : List Rel),
      rebalanceNodeLoop rels ns (Except.ok db) =
        if ns.any (fun node => (predsOf rels node).any (fun p =>
            (succsOf rels node).any (fun s =>
              (¬ hasEdgeB rels p s ∧ MIN_RELATIONSHIP_WEIGHT <
                min (edgeWeight rels p node) (edgeWeight rels node s) : Prop)))) then
          Except.error "NameError: name uuid is not defined"
        else Except.ok db := by
  intro ns
  induction ns with
  | nil => intro db; rfl
  | cons nd rest ih =>
      intro db
      rw [rebalanceNodeLoop, rebalancePredLoop_char]
      by_cases hc : (predsOf rels nd).any (fun p =>
          (succsOf rels nd).any (fun s =>
            (¬ hasEdgeB rels p s ∧ MIN_RELATIONSHIP_WEIGHT <
              min (edgeWeight rels p nd) (edgeWeight rels nd s) : Prop))) = true
      · have hany : ((nd :: rest).any (fun node => (predsOf rels node).any (fun p =>
            (succsOf rels node).any (fun s =>
              (¬ hasEdgeB rels p s ∧ MIN_RELATIONSHIP_WEIGHT <
                min (edgeWeight rels p node) (edgeWeight rels node s) : Prop))))) = true := by
          rw [List.any_cons, Bool.or_eq_true]
          exact Or.inl hc
        rw [if_pos hc, rebalanceNodeLoop_error, if_pos hany]
      · have hcf : (predsOf rels nd).any (fun p =>
            (succsOf rels nd).any (fun s =>
              (¬ hasEdgeB rels p s ∧ MIN_RELATIONSHIP_WEIGHT <
                min (edgeWeight rels p nd) (edgeWeight rels nd s) : Prop))) = false :=
          Bool.eq_false_iff.mpr hc
        have hany : ((nd :: rest).any (fun node => (predsOf rels node).any (fun p =>
            (succsOf rels node).any (fun s =>
              (¬ hasEdgeB rels p s ∧ MIN_RELATIONSHIP_WEIGHT <
                min (edgeWeight rels p node) (edgeWeight rels node s) : Prop))))) =
            (rest.any (fun node => (predsOf rels node).any (fun p =>
            (succsOf rels node).any (fun s =>
              (¬ hasEdgeB rels p s ∧ MIN_RELATIONSHIP_WEIGHT <
                min (edgeWeight rels p node) (edgeWeight rels node s) : Prop))))) := by
          rw [List.any_cons, hcf, Bool.false_or]
        rw [if_neg hc, ih, hany]

/-- Claim C6: the name `uuid` is not among the module-level bindings of
graph_optimizer.py, so whenever `rebalance_structure` identifies a node with
clustering coefficient below the threshold and a predecessor/successor pair
lacking a direct edge with candidate weight above `MIN_RELATIONSHIP_WEIGHT`,
the edge-creation branch raises `NameError` instead of inserting the edge;
`rebalance_structure` therefore never changes the store on success, and
`optimize` fails whenever an insertion is attempted. -/
theorem rebalance_uuid_name_error :
    ("uuid" ∈ graphOptimizerModuleGlobals → False) ∧
    (∀ (cfg : List (String × ℚ)) (db : List Rel),
      rebalance_structure cfg db =
        if rebalanceTrigger cfg db then
          Except.error "NameError: name uuid is not defined"
        else Except.ok db) ∧
    (∀ (cfg : List (String × ℚ)) (db r : List Rel),
      rebalance_structure cfg db = Except.ok r → r = db) ∧
    (∀ (pr : List Rel → String → ℚ) (cfg : List (String × ℚ)) (gid : String)
        (db : List Rel) (cache : MetricsCache),
      rebalanceTrigger cfg (optimizePassesDb pr db) = true →
      (optimize pr cfg gid db cache).isOk = false) := by
  have hchar : ∀ (cfg : List (String × ℚ)) (db : List Rel),
      rebalance_structure cfg db =
        if rebalanceTrigger cfg db then
          Except.error "NameError: name uuid is not defined"
        else Except.ok db := by
    intro cfg db
    rw [rebalance_structure, rebalanceNodeLoop_char]
    rfl
  refine ⟨by decide, hchar, ?_, ?_⟩
  · intro cfg db r h
    rw [hchar] at h
    by_cases ht : rebalanceTrigger cfg db
    · rw [if_pos ht] at h; cases h
    · rw [if_neg ht] at h; cases h; rfl
  · intro pr cfg gid db cache htrig
    rw [optimize]
    cases hm : calculate_metrics cache gid db with
    | error e => rfl
    | ok p =>
        cases p with
        | mk initial cache1 =>
            dsimp only
            rw [hchar, if_pos htrig]
            rfl
  
end KnowledgeOrg

namespace KnowledgeOrg

/-- The C6 chain A→B→C triggers an edge insertion: every node's clustering
coefficient is 0 < 0.3, and node B's pair (A, C) has no direct edge with
candidate weight 0.5 > 0.1. -/
theorem rebalanceTrigger_c6 : rebalanceTrigger [] c6db = true := by
  have hn : nodesOfRels c6db = ["A", "B", "C"] := rfl
  have hcA : clusteringCoeff c6db "A" = 0 := rfl
  have hcB : clusteringCoeff c6db "B" = 0 := rfl
  have hcC : clusteringCoeff c6db "C" = 0 := rfl
  have hd : dictGetQ [] "min_clustering" (3/10) = 3/10 := rfl
  have h0 : (0:ℚ) < 3/10 := by norm_num
  have hrn : rebalanceNodes [] c6db = ["A", "B", "C"] := by
    simp [rebalanceNodes, hn, hcA, hcB, hcC, hd, h0]
  have hpA : predsOf c6db "A" = [] := rfl
  have hpB : predsOf c6db "B" = ["A"] := rfl
  have hpC : predsOf c6db "C" = ["B"] := rfl
  have hsB : succsOf c6db "B" = ["C"] := rfl
  have hsC : succsOf c6db "C" = [] := rfl
  have hE : hasEdgeB c6db "A" "C" = false := rfl
  have hw1 : edgeWeight c6db "A" "B" = 1/2 := rfl
  have hw2 : edgeWeight c6db "B" "C" = 1/2 := rfl
  rw [rebalanceTrigger, hrn]
  simp [hpA, hpB, hpC, hsB, hsC, hE, hw1, hw2]
  norm_num [MIN_RELATIONSHIP_WEIGHT]

/-- After the two batched passes the C6 chain still triggers an insertion:
the structure is unchanged and the re-weighted edges carry
clip(0.25, 0.1, 1) = 0.25 > 0.1. -/
theorem rebalanceTrigger_c6_passes :
    rebalanceTrigger [] (optimizePassesDb prHalf c6db) = true := by
  have hn : nodesOfRels (optimizePassesDb prHalf c6db) = ["A", "B", "C"] := rfl
  have hcA : clusteringCoeff (optimizePassesDb prHalf c6db) "A" = 0 := rfl
  have hcB : clusteringCoeff (optimizePassesDb prHalf c6db) "B" = 0 := rfl
  have hcC : clusteringCoeff (optimizePassesDb prHalf c6db) "C" = 0 := rfl
  have hd : dictGetQ [] "min_clustering" (3/10) = 3/10 := rfl
  have h0 : (0:ℚ) < 3/10 := by norm_num
  have hrn : rebalanceNodes [] (optimizePassesDb prHalf c6db) = ["A", "B", "C"] := by
    simp [rebalanceNodes, hn, hcA, hcB, hcC, hd, h0]
  have hpA : predsOf (optimizePassesDb prHalf c6db) "A" = [] := rfl
  have hpB : predsOf (optimizePassesDb prHalf c6db) "B" = ["A"] := rfl
  have hpC : predsOf (optimizePassesDb prHalf c6db) "C" = ["B"] := rfl
  have hsB : succsOf (optimizePassesDb prHalf c6db) "B" = ["C"] := rfl
  have hsC : succsOf (optimizePassesDb prHalf c6db) "C" = [] := rfl
  have hE : hasEdgeB (optimizePassesDb prHalf c6db) "A" "C" = false := rfl
  have hw1 : edgeWeight (optimizePassesDb prHalf c6db) "A" "B" =
      npClip ((1/2 + 1/2) / 2 * ((1:ℚ)/2)) (1/10) 1 := rfl
  have hw2 : edgeWeight (optimizePassesDb prHalf c6db) "B" "C" =
      npClip ((1/2 + 1/2) / 2 * ((1:ℚ)/2)) (1/10) 1 := rfl
  rw [rebalanceTrigger, hrn]
  simp [hpA, hpB, hpC, hsB, hsC, hE, hw1, hw2]
  norm_num [MIN_RELATIONSHIP_WEIGHT, npClip]

/-- Claim C6, witness: on the concrete chain A→B→C, `rebalance_structure`
raises the `uuid` NameError and `optimize` fails. -/
theorem rebalance_uuid_name_error_witness :
    rebalance_structure [] c6db = Except.error "NameError: name uuid is not defined" ∧
    (optimize prHalf [] "g" c6db []).isOk = false :=
  ⟨by rw [rebalance_uuid_name_error.2.1, rebalanceTrigger_c6]; rfl,
   rebalance_uuid_name_error.2.2.2 prHalf [] "g" c6db [] rebalanceTrigger_c6_passes⟩

end KnowledgeOrg

namespace KnowledgeOrg

/-- Claim C10: in a batch containing the direct edge A→C of weight 0.3
together with A→B and B→C of weight product 0.6, the simple paths from A to C
are the alternate path A→B→C (strength 0.6) and the direct edge itself, the
alternate path's product exceeds the direct weight, so the edge with id "ac"
is marked redundant and deleted from the store. -/
theorem remove_redundant_deletes_weaker_direct_edge :
    allSimplePaths c10batch "A" "C" = [["A", "B", "C"], ["A", "C"]] ∧
    pathStrength c10batch ["A", "B", "C"] = 3/5 ∧
    edgeWeight c10batch "A" "C" = 3/10 ∧
    redundantEdgeIds c10batch = ["ac"] ∧
    remove_redundant_relationships c10batch c10batch = [c10relAB, c10relBC] := by
  have hp1 : allSimplePaths c10batch "A" "B" = [["A", "B"]] := rfl
  have hp2 : allSimplePaths c10batch "A" "C" = [["A", "B", "C"], ["A", "C"]] := rfl
  have hp3 : allSimplePaths c10batch "B" "C" = [["B", "C"]] := rfl
  have hg : gEdges c10batch = [("A", "B"), ("A", "C"), ("B", "C")] := rfl
  have hid : edgeId c10batch "A" "C" = "ac" := rfl
  have hw : edgeWeight c10batch "A" "C" = 3/10 := rfl
  have hm : maxQ [pathStrength c10batch ["A", "B", "C"], pathStrength c10batch ["A", "C"]] =
      max ((3:ℚ)/4 * (4/5 * 1)) ((3:ℚ)/10 * 1) := rfl
  have hcmp : edgeWeight c10batch "A" "C" <
      maxQ [pathStrength c10batch ["A", "B", "C"], pathStrength c10batch ["A", "C"]] := by
    rw [hw, hm]; norm_num
  have hred : redundantEdgeIds c10batch = ["ac"] := by
    rw [redundantEdgeIds, hg]
    simp [hp1, hp2, hp3, hid, hcmp]
  refine ⟨hp2, ?_, hw, hred, ?_⟩
  · show (3:ℚ)/4 * ((4:ℚ)/5 * 1) = 3/5
    norm_num
  · rw [remove_redundant_relationships, hred]
    simp [c10batch, c10relAB, c10relBC, c10relAC]

end KnowledgeOrg

namespace KnowledgeOrg

/-- On the C5 store, redundancy removal marks exactly the direct edge "ac"
(the alternate path A→B→C has strength 0.81 > 0.3). -/
theorem c5_redundant : redundantEdgeIds c5rels = ["ac"] := by
  have hg : gEdges c5rels = [("A", "B"), ("A", "C"), ("B", "C"), ("C", "A")] := rfl
  have hp1 : allSimplePaths c5rels "A" "B" = [["A", "B"]] := rfl
  have hp2 : allSimplePaths c5rels "A" "C" = [["A", "B", "C"], ["A", "C"]] := rfl
  have hp3 : allSimplePaths c5rels "B" "C" = [["B", "C"]] := rfl
  have hp4 : allSimplePaths c5rels "C" "A" = [["C", "A"]] := rfl
  have hid : edgeId c5rels "A" "C" = "ac" := rfl
  have hw : edgeWeight c5rels "A" "C" = 3/10 := rfl
  have hm : maxQ [pathStrength c5rels ["A", "B", "C"], pathStrength c5rels ["A", "C"]] =
      max ((9:ℚ)/10 * (9/10 * 1)) ((3:ℚ)/10 * 1) := rfl
  have hcmp : edgeWeight c5rels "A" "C" <
      maxQ [pathStrength c5rels ["A", "B", "C"], pathStrength c5rels ["A", "C"]] := by
    rw [hw, hm]; norm_num
  rw [redundantEdgeIds, hg]
  simp [hp1, hp2, hp3, hp4, hid, hcmp]

/-- The two batched passes transform the C5 store as expected. -/
theorem c5_passes : optimizePassesDb prHalf c5rels = c5dbAfterPasses := by
  have hch : chunks 100 c5rels = [c5rels] := rfl
  have hrr : remove_redundant_relationships c5rels c5rels = [c5relAB, c5relBC, c5relCA] := by
    rw [remove_redundant_relationships, c5_redundant]
    simp [c5rels, c5relAB, c5relBC, c5relCA, c5relAC]
  rw [optimizePassesDb, hch, List.foldl_cons, List.foldl_nil, hrr]
  rfl

/-- With `min_clustering = 0` no node is selected for rebalancing (the
coefficients of the 3-cycle are 1/2 each, not below 0), so
`rebalance_structure` returns the store unchanged. -/
theorem c5_rebalance_skipped :
    rebalance_structure cfgZeroClustering c5dbAfterPasses = Except.ok c5dbAfterPasses := by
  have hn : nodesOfRels c5dbAfterPasses = ["A", "B", "C"] := rfl
  have hd : dictGetQ cfgZeroClustering "min_clustering" (3/10) = 0 := rfl
  have hcA : clusteringCoeff c5dbAfterPasses "A" =
      ((2:ℕ) : ℚ) / (2 * (((2:ℕ) : ℚ) * (((2:ℕ) : ℚ) - 1) - 2 * ((0:ℕ) : ℚ))) := rfl
  have hcB : clusteringCoeff c5dbAfterPasses "B" =
      ((2:ℕ) : ℚ) / (2 * (((2:ℕ) : ℚ) * (((2:ℕ) : ℚ) - 1) - 2 * ((0:ℕ) : ℚ))) := rfl
  have hcC : clusteringCoeff c5dbAfterPasses "C" =
      ((2:ℕ) : ℚ) / (2 * (((2:ℕ) : ℚ) * (((2:ℕ) : ℚ) - 1) - 2 * ((0:ℕ) : ℚ))) := rfl
  have hfact : ¬ (((2:ℕ) : ℚ) / (2 * (((2:ℕ) : ℚ) * (((2:ℕ) : ℚ) - 1) - 2 * ((0:ℕ) : ℚ))) < 0) := by
    push_cast
    norm_num
  have hrn : rebalanceNodes cfgZeroClustering c5dbAfterPasses = [] := by
    rw [rebalanceNodes, hn]
    simp [hcA, hcB, hcC, hd, hfact]
    norm_num
  rw [rebalance_structure, hrn]
  rfl

/-- The pre-pass metrics of the C5 store count 4 edges. -/
theorem c5_metrics_edge_count :
    (metricsOf c5rels).map (fun m => m.edge_count) = Except.ok 4 := rfl

/-- A fresh metrics computation on the post-pass store counts 3 edges. -/
theorem c5_post_metrics_edge_count :
    (metricsOf c5dbAfterPasses).map (fun m => m.edge_count) = Except.ok 3 := rfl

end KnowledgeOrg

namespace KnowledgeOrg

/-- After a successful `calculate_metrics` call, the cache holds the returned
metrics under the graph's key. -/
theorem calculate_metrics_caches (cache : MetricsCache) (gid : String) (rels : List Rel)
    (m : Metrics) (cache' : MetricsCache)
    (h : calculate_metrics cache gid rels = Except.ok (m, cache')) :
    cache'.find? (fun p => p.1 = "metrics:" ++ gid) = some ("metrics:" ++ gid, m) := by
  rw [calculate_metrics] at h
  cases hf : List.find? (fun p => p.1 = "metrics:" ++ gid) cache with
  | some p =>
      rw [hf] at h
      dsimp only at h
      injection h with h'
      injection h' with hm hc
      have hp : p.1 = "metrics:" ++ gid := by simpa using @List.find?_some _ _ _ _ hf
      rw [← hc, hf, ← hm, ← hp]
  | none =>
      rw [hf] at h
      dsimp only at h
      cases hm : metricsOf rels with
      | error e => rw [hm] at h; cases h
      | ok mm =>
          rw [hm] at h
          injection h with h'
          injection h' with hmm hc
          rw [← hc, List.find?_append, hf]
          simp [List.find?, hmm]

/-- Every successful `optimize` run records identical initial and final
metrics: the final `calculate_metrics` call hits the cache entry written by
the initial call (same `metrics:{graph.id}` key, 300-second TTL), so the
post-pass store is never re-measured. -/
theorem optimize_final_eq_initial (pr : List Rel → String → ℚ)
    (cfg : List (String × ℚ)) (gid : String) (db : List Rel)
    (cache : MetricsCache) (r : OptimizeResult)
    (h : optimize pr cfg gid db cache = Except.ok r) :
    r.finalMetrics = r.initialMetrics := by
  rw [optimize] at h
  cases h1 : calculate_metrics cache gid db with
  | error e => rw [h1] at h; cases h
  | ok p =>
      obtain ⟨initial, cache1⟩ := p
      rw [h1] at h
      dsimp only at h
      cases h2 : rebalance_structure cfg (optimizePassesDb pr db) with
      | error e => rw [h2] at h; cases h
      | ok db2 =>
          rw [h2] at h
          dsimp only at h
          cases h3 : calculate_metrics cache1 gid db2 with
          | error e => rw [h3] at h; cases h
          | ok q =>
              obtain ⟨final, cache2⟩ := q
              rw [h3] at h
              dsimp only at h
              have hckey := calculate_metrics_caches cache gid db initial cache1 h1
              rw [calculate_metrics, hckey] at h3
              dsimp only at h3
              injection h3 with h3'
              injection h3' with hfin _
              injection h with hr
              rw [← hr]
              dsimp only
              exact hfin.symm

/-- Claim C5: the `final` entry of `metadata.optimization_metrics` is never a
fresh recomputation — for every successful `optimize` run it equals the
initial (pre-pass) metrics, because the final `calculate_metrics` call hits
the per-graph-id cache entry written before the passes.  On the concrete C5
store the recorded final metrics still count 4 edges although pass one
deleted edge "ac" and a fresh metrics computation on the post-pass store
counts 3. -/
theorem optimize_final_metrics_stale :
    (∀ (pr : List Rel → String → ℚ) (cfg : List (String × ℚ)) (gid : String)
        (db : List Rel) (cache : MetricsCache) (r : OptimizeResult),
      optimize pr cfg gid db cache = Except.ok r →
        r.finalMetrics = r.initialMetrics) ∧
    (optimize prHalf cfgZeroClustering "g1" c5rels []).map
      (fun r => r.finalMetrics.edge_count) = Except.ok 4 ∧
    ((optimize prHalf cfgZeroClustering "g1" c5rels []).bind
      (fun r => metricsOf r.db)).map (fun m => m.edge_count) = Except.ok 3 := by
  refine ⟨optimize_final_eq_initial, ?_⟩
  cases hM : metricsOf c5rels with
  | error e =>
      have h4 := c5_metrics_edge_count
      rw [hM] at h4
      cases h4
  | ok M =>
      have hMec : M.edge_count = 4 := by
        have h4 := c5_metrics_edge_count
        rw [hM] at h4
        simpa [Except.map] using h4
      have hcm1 : calculate_metrics [] "g1" c5rels =
          Except.ok (M, [("metrics:g1", M)]) := by
        rw [calculate_metrics]
        dsimp only [List.find?]
        rw [hM]
        rfl
      have hf2 : List.find? (fun p => p.1 = "metrics:" ++ "g1")
          [("metrics:g1", M)] = some ("metrics:g1", M) := rfl
      have hcm2 : calculate_metrics [("metrics:g1", M)] "g1" c5dbAfterPasses =
          Except.ok (M, [("metrics:g1", M)]) := by
        rw [calculate_metrics, hf2]
      have hopt : optimize prHalf cfgZeroClustering "g1" c5rels [] =
          Except.ok { db := c5dbAfterPasses, cache := [("metrics:g1", M)],
                      initialMetrics := M, finalMetrics := M } := by
        rw [optimize, hcm1]
        dsimp only
        rw [c5_passes, c5_rebalance_skipped]
        dsimp only
        rw [hcm2]
      constructor
      · rw [hopt]
        simp [Except.map, hMec]
      · rw [hopt]
        dsimp only [Except.bind]
        exact c5_post_metrics_edge_count

/-- Claim C5, witness: a successful concrete `optimize` run on the two-cycle
store, with the theorem applied to show its final metrics equal its initial
metrics. -/
theorem optimize_final_metrics_stale_witness :
    (optimize prHalf cfgZeroClustering "g2" g2rels []).map
      (fun r => decide (r.finalMetrics = r.initialMetrics)) = Except.ok true := by
  cases h : optimize prHalf cfgZeroClustering "g2" g2rels [] with
  | error e =>
      have hOk : (optimize prHalf cfgZeroClustering "g2" g2rels []).isOk = true := rfl
      rw [h] at hOk
      cases hOk
  | ok r =>
      simp only [Except.map]
      rw [decide_eq_true
        (optimize_final_metrics_stale.1 prHalf cfgZeroClustering "g2" g2rels [] r h)]

end KnowledgeOrg
